import Mathlib

/-!
Verification of the thrift-examples repository: a weather RPC handler
(Go, `go_stream_server/server.go`), an HTTP-to-RPC temperature bridge
(Node, `nodejs_stream_client` server), and an HTTP-to-RPC LLM bridge
(Node, `nodejs_llm_client/src/server.ts`).

The embedding is shallow: every effectful step (the outbound HTTP GET,
reading the response body, JSON unmarshalling, the clock, the RPC call)
is passed in explicitly as data or as a function parameter, and the
repository's own control flow is transcribed from the source.
-/

namespace ThriftExamples

/-! ## Weather handler (go_stream_server/server.go) -/

/-- The static city → (latitude, longitude) table from
`getCoordinatesForLocation` in `server.go` (identical literals in
`utils/utils.go`). Coordinates are modelled as exact rationals carrying
the source's decimal literals. -/
def coordinates : List (String × (ℚ × ℚ)) :=
  [ ("new york",      (40.7128, -74.0060)),
    ("london",        (51.5074, -0.1278)),
    ("tokyo",         (35.6762, 139.6503)),
    ("paris",         (48.8566, 2.3522)),
    ("sydney",        (-33.8688, 151.2093)),
    ("san francisco", (37.7749, -122.4194)) ]

/-- `getCoordinatesForLocation` from `server.go`: exact map lookup,
returning the New York pair when the key is absent. -/
def getCoordinatesForLocation (location : String) : ℚ × ℚ :=
  match coordinates.lookup location with
  | some coord => coord
  | none => (40.7128, -74.0060)

/-- The decoded open-meteo JSON payload (`OpenMeteoResponse` in
`server.go`): nested current temperature, error flag, reason. -/
structure OpenMeteoResponse where
  temperature_2m : ℚ
  error : Bool
  reason : String
deriving Repr, DecidableEq

/-- The outcome of `http.Get` when it returns a response: a status code
and the result of `io.ReadAll` on the body (which may itself fail). -/
structure HttpResponse where
  statusCode : Nat
  readBody : Except String String
deriving Repr

/-- `WeatherServiceError` from the thrift schema (`weather.thrift`). -/
structure WeatherServiceError where
  message : String
  details : String
deriving Repr, DecidableEq

/-- `TemperatureReading` from the thrift schema (`weather.thrift`). -/
structure TemperatureReading where
  temperature : ℚ
  location : String
  timestamp : Int
  unit : String
deriving Repr, DecidableEq

/-- The effectful environment of one `GetTemperature` call: the result
of `http.Get` at the resolved coordinates, the JSON unmarshaller applied
to the body string, and the current unix time. -/
structure WeatherEnv where
  httpGet : ℚ × ℚ → Except String HttpResponse
  jsonUnmarshal : String → Except String OpenMeteoResponse
  now : Int

/-- `WeatherMonitorHandler.GetTemperature` from `server.go`, transcribed
step by step: resolve coordinates, HTTP GET, read the body, check the
status code, unmarshal, check the payload error flag, build the reading. -/
def GetTemperature (env : WeatherEnv) (location : String) :
    Except WeatherServiceError TemperatureReading :=
  let coord := getCoordinatesForLocation location
  match env.httpGet coord with
  | .error e => .error ⟨"Failed to fetch weather data", e⟩
  | .ok resp =>
    match resp.readBody with
    | .error e => .error ⟨"Failed to read response", e⟩
    | .ok body =>
      if resp.statusCode ≠ 200 then
        .error ⟨"Weather API error", "Status code: " ++ toString resp.statusCode⟩
      else
        match env.jsonUnmarshal body with
        | .error e => .error ⟨"Failed to decode weather data", e⟩
        | .ok weatherData =>
          if weatherData.error then
            .error ⟨"Weather API error", weatherData.reason⟩
          else
            .ok ⟨weatherData.temperature_2m, location, env.now, "celsius"⟩

/-! ## Temperature HTTP bridge (nodejs stream client server) -/

/-- The runtime shape of the RPC result's `timestamp` field as the Node
bridge sees it: a plain number, a `Buffer`, or a plain object
`\x7btype: "Buffer", data\x7d` (the JSON round-trip of a Buffer). -/
inductive TimestampRepr where
  | num (n : Int)
  | buf (bytes : List Nat)
  | bufObj (data : List Nat)
deriving Repr, DecidableEq

/-- `Buffer.readBigInt64BE` at offset 0: the first 8 bytes interpreted
as a big-endian two's-complement 64-bit integer. -/
def readBigInt64BE (bytes : List Nat) : Int :=
  let u : Nat := (bytes.take 8).foldl (fun acc b => acc * 256 + b % 256) 0
  if u < 2 ^ 63 then (u : Int) else (u : Int) - 2 ^ 64

/-- The timestamp-conversion block of the bridge's temperature route:
decode `Buffer` shapes via `readBigInt64BE`, leave numbers alone, then
`String(timestamp)`. -/
def decodeTimestamp : TimestampRepr → String
  | .num n => toString n
  | .buf bytes => toString (readBigInt64BE bytes)
  | .bufObj data => toString (readBigInt64BE data)

/-- The weather RPC result record as delivered to the Node bridge. -/
structure TempRpcResult where
  temperature : ℚ
  location : String
  timestamp : TimestampRepr
  unit : String
deriving Repr, DecidableEq

/-- The JSON body the bridge sends on success: field-by-field image of
the RPC record, timestamp stringified. -/
structure JsonTempResponse where
  temperature : ℚ
  location : String
  timestamp : String
  unit : String
deriving Repr, DecidableEq

/-- The HTTP response of one bridge route invocation. -/
inductive TempHttpOutcome where
  | clientError (status : Nat) (error : String)
  | success (status : Nat) (body : JsonTempResponse)
  | serverError (status : Nat) (error : String) (details : String)
deriving Repr, DecidableEq

/-- One step of the temperature route: the HTTP outcome plus whether the
RPC call (and hence the downstream chain) was attempted at all. -/
structure TempBridgeStep where
  outcome : TempHttpOutcome
  rpcCalled : Bool
deriving Repr, DecidableEq

/-- The `POST /api/temperature` route of the Node weather bridge. The
request body's `location` is `Option String` (`none` = field absent);
the JavaScript guard `if (!location)` also rejects the empty string.
The RPC call is the `rpc` parameter, applied to the location. -/
def handleTemperature (location : Option String)
    (rpc : String → Except String TempRpcResult) : TempBridgeStep :=
  match location with
  | none => ⟨.clientError 400 "Location is required", false⟩
  | some loc =>
    if loc = "" then ⟨.clientError 400 "Location is required", false⟩
    else
      match rpc loc with
      | .error e => ⟨.serverError 500 "Failed to get temperature data" e, true⟩
      | .ok r =>
        ⟨.success 200 ⟨r.temperature, r.location, decodeTimestamp r.timestamp, r.unit⟩, true⟩

/-! ## Caching LLM HTTP bridge (nodejs_llm_client/src/server.ts) -/

/-- A thrift connection handle as the bridge configures it:
`thrift.createConnection` options plus the observable connected flag. -/
structure ThriftConn where
  connected : Bool
  timeout : Nat
  max_attempts : Nat
  retry_max_delay : Nat
deriving Repr, DecidableEq

/-- The module-level mutable state of `server.ts`: the cached client and
connection (both nullable). `nextClientId` gives fresh clients distinct
identities so reuse is observable. -/
structure LlmBridgeState where
  thriftClient : Option Nat
  thriftConnection : Option ThriftConn
  nextClientId : Nat
deriving Repr, DecidableEq

/-- The value and effects of one `createThriftClient()` call. -/
structure CreateClientResult where
  client : Nat
  state : LlmBridgeState
  openedNew : Bool
  closedExisting : Bool
deriving Repr, DecidableEq

/-- The fresh-connection branch of `createThriftClient`: end any existing
connection, open a new one with timeout 30000 ms, max_attempts 3,
retry_max_delay 2000, and build a new client over it. Whether the new
socket actually connects is the environment's `freshConnected`. -/
def connectFresh (s : LlmBridgeState) (freshConnected : Bool) : CreateClientResult :=
  { client := s.nextClientId,
    state :=
      { thriftClient := some s.nextClientId,
        thriftConnection := some
          { connected := freshConnected, timeout := 30000,
            max_attempts := 3, retry_max_delay := 2000 },
        nextClientId := s.nextClientId + 1 },
    openedNew := true,
    closedExisting := s.thriftConnection.isSome }

/-- `createThriftClient` from `server.ts`: return the cached client when
both the client and the connection exist and the connection is
connected; otherwise tear down and reconnect via `connectFresh`. -/
def createThriftClient (s : LlmBridgeState) (freshConnected : Bool) : CreateClientResult :=
  match s.thriftClient, s.thriftConnection with
  | some c, some conn =>
    if conn.connected then
      { client := c, state := s, openedNew := false, closedExisting := false }
    else connectFresh s freshConnected
  | _, _ => connectFresh s freshConnected

/-- `TextGenerationRequest` as the bridge constructs it (prompt plus the
two defaulted generation parameters; `llm.thrift` fields it does not
set are omitted). -/
structure TextGenerationRequest where
  prompt : String
  temperature : ℚ
  max_length : Int
deriving Repr, DecidableEq

/-- JavaScript `v || d` on an optional numeric rational: the default is
taken when the value is absent or zero (both falsy). -/
def jsOrQ (v : Option ℚ) (d : ℚ) : ℚ :=
  match v with
  | none => d
  | some x => if x = 0 then d else x

/-- JavaScript `v || d` on an optional integer. -/
def jsOrI (v : Option Int) (d : Int) : Int :=
  match v with
  | none => d
  | some x => if x = 0 then d else x

/-- The request the bridge builds:
`new TextGenerationRequest(\x7bprompt, temperature: temperature || 0.7,
max_length: maxTokens || 512\x7d)`. -/
def buildLlmRequest (prompt : String) (temperature : Option ℚ)
    (maxTokens : Option Int) : TextGenerationRequest :=
  ⟨prompt, jsOrQ temperature 0.7, jsOrI maxTokens 512⟩

/-- The LLM RPC result record (`TextGenerationResponse` fields the
bridge reads). -/
structure LlmRpcResult where
  generated_text : String
  generation_time : ℚ
  input_tokens : Int
  generated_tokens : Int
deriving Repr, DecidableEq

/-- The HTTP response of one LLM route invocation. -/
inductive LlmHttpOutcome where
  | clientError (status : Nat) (error : String)
  | success (status : Nat) (text : String) (generationTime : ℚ)
      (inputTokens : Int) (generatedTokens : Int)
  | serverError (status : Nat) (error : String) (details : String)
deriving Repr, DecidableEq

/-- One step of the LLM route: the HTTP outcome, the post-request module
state, whether the RPC was attempted, and the request sent over RPC (if
any). -/
structure LlmStep where
  outcome : LlmHttpOutcome
  state : LlmBridgeState
  rpcCalled : Bool
  sentRequest : Option TextGenerationRequest
deriving Repr, DecidableEq

/-- The body of `POST /api/llm` (`none` = field absent). -/
structure LlmBody where
  prompt : Option String
  temperature : Option ℚ
  maxTokens : Option Int
deriving Repr, DecidableEq

/-- The `POST /api/llm` route of `server.ts`: reject a falsy prompt with
400 before touching the client; otherwise acquire a client via
`createThriftClient`, build the request, and run the RPC. On RPC error
the callback nulls `thriftClient` and the route answers 500 with the
error detail; on success it answers 200 with the field-by-field JSON. -/
def handleLlm (s : LlmBridgeState) (body : LlmBody) (freshConnected : Bool)
    (rpc : Nat → TextGenerationRequest → Except String LlmRpcResult) : LlmStep :=
  match body.prompt with
  | none => ⟨.clientError 400 "Prompt is required", s, false, none⟩
  | some p =>
    if p = "" then ⟨.clientError 400 "Prompt is required", s, false, none⟩
    else
      let cr := createThriftClient s freshConnected
      let request := buildLlmRequest p body.temperature body.maxTokens
      match rpc cr.client request with
      | .error e =>
        ⟨.serverError 500 "Failed to generate text" e,
          { cr.state with thriftClient := none }, true, some request⟩
      | .ok r =>
        ⟨.success 200 r.generated_text r.generation_time r.input_tokens r.generated_tokens,
          cr.state, true, some request⟩

/-! ## Concrete sample environments used to instantiate the theorems -/

/-- A 200 response whose body reads successfully. -/
def sampleOkResp : HttpResponse := ⟨200, .ok "weather-body"⟩

/-- Environment for a fully successful weather call. -/
def sampleOkEnv : WeatherEnv :=
  { httpGet := fun _ => .ok sampleOkResp,
    jsonUnmarshal := fun _ => .ok ⟨20.5, false, ""⟩,
    now := 1700000000 }

/-- Environment where the API answers 200 but the payload error flag is
set with reason "X". -/
def sampleErrFlagEnv : WeatherEnv :=
  { httpGet := fun _ => .ok sampleOkResp,
    jsonUnmarshal := fun _ => .ok ⟨0, true, "X"⟩,
    now := 1700000000 }

/-- A 500 response whose body still reads and even decodes. -/
def sample500Resp : HttpResponse := ⟨500, .ok "oops"⟩

/-- Environment returning HTTP 500 with a decodable error payload. -/
def sample500Env : WeatherEnv :=
  { httpGet := fun _ => .ok sample500Resp,
    jsonUnmarshal := fun _ => .ok ⟨0, true, "ignored"⟩,
    now := 1700000000 }

/-- A response (status 500) whose body read itself fails. -/
def sampleReadFailResp : HttpResponse := ⟨500, .error "connection reset"⟩

/-- Environment where reading the response body fails. -/
def sampleReadFailEnv : WeatherEnv :=
  { httpGet := fun _ => .ok sampleReadFailResp,
    jsonUnmarshal := fun _ => .ok ⟨0, false, ""⟩,
    now := 1700000000 }

/-! ## Claims -/

/-- C1: every key of the static city table resolves to exactly its
listed (latitude, longitude) literal, and every string absent from the
table resolves to the New York default (40.7128, -74.0060). The
function is a total Lean function, so it signals no error on any
input. -/
theorem getCoordinatesForLocation_table_and_default :
    getCoordinatesForLocation "new york" = (40.7128, -74.0060) ∧
    getCoordinatesForLocation "london" = (51.5074, -0.1278) ∧
    getCoordinatesForLocation "tokyo" = (35.6762, 139.6503) ∧
    getCoordinatesForLocation "paris" = (48.8566, 2.3522) ∧
    getCoordinatesForLocation "sydney" = (-33.8688, 151.2093) ∧
    getCoordinatesForLocation "san francisco" = (37.7749, -122.4194) ∧
    ∀ s, coordinates.lookup s = none →
      getCoordinatesForLocation s = (40.7128, -74.0060) := by
  refine ⟨rfl, rfl, rfl, rfl, rfl, rfl, fun s h => ?_⟩
  simp [getCoordinatesForLocation, h]

/-- Witness for C1: "berlin" is not in the table and resolves to the
default pair. -/
theorem getCoordinatesForLocation_table_and_default_witness :
    coordinates.lookup "berlin" = none ∧
    getCoordinatesForLocation "berlin" = (40.7128, -74.0060) :=
  ⟨by decide,
   getCoordinatesForLocation_table_and_default.2.2.2.2.2.2 "berlin" (by decide)⟩

/-- C2: when the HTTP GET returns a response, the body reads, the
status is 200, the payload decodes and its error flag is false,
`GetTemperature` succeeds with the payload's current temperature, the
request's location echoed unchanged, the current unix time, and unit
"celsius". -/
theorem GetTemperature_success (env : WeatherEnv) (location : String)
    (resp : HttpResponse) (body : String) (payload : OpenMeteoResponse)
    (hget : env.httpGet (getCoordinatesForLocation location) = .ok resp)
    (hread : resp.readBody = .ok body)
    (hstatus : resp.statusCode = 200)
    (hjson : env.jsonUnmarshal body = .ok payload)
    (herr : payload.error = false) :
    GetTemperature env location =
      .ok ⟨payload.temperature_2m, location, env.now, "celsius"⟩ := by
  simp [GetTemperature, hget, hread, hstatus, hjson, herr]

/-- Witness for C2: the sample successful environment yields the 20.5
reading for "london". -/
theorem GetTemperature_success_witness :
    GetTemperature sampleOkEnv "london" =
      .ok ⟨20.5, "london", 1700000000, "celsius"⟩ :=
  GetTemperature_success sampleOkEnv "london" sampleOkResp "weather-body"
    ⟨20.5, false, ""⟩ rfl rfl rfl rfl rfl

/-- C3: a POST whose body lacks the required field is rejected with 400
and a JSON error body at both bridges: the temperature route answers
"Location is required" without invoking the RPC, and the LLM route
answers "Prompt is required" without invoking the RPC, without touching
the cached client state, and without sending any request. -/
theorem bridge_missing_field_rejected :
    (∀ rpc, handleTemperature none rpc =
      ⟨.clientError 400 "Location is required", false⟩) ∧
    (∀ s body fc rpc, body.prompt = none →
      handleLlm s body fc rpc =
        ⟨.clientError 400 "Prompt is required", s, false, none⟩) := by
  constructor
  · intro rpc; rfl
  · intro s body fc rpc hp
    simp [handleLlm, hp]

/-- Witness for C3: concrete empty bodies at both routes. -/
theorem bridge_missing_field_rejected_witness :
    handleTemperature none (fun _ => .error "unreachable") =
      ⟨.clientError 400 "Location is required", false⟩ ∧
    handleLlm ⟨none, none, 0⟩ ⟨none, none, none⟩ true
        (fun _ _ => .error "unreachable") =
      ⟨.clientError 400 "Prompt is required", ⟨none, none, 0⟩, false, none⟩ :=
  ⟨bridge_missing_field_rejected.1 _,
   bridge_missing_field_rejected.2 ⟨none, none, 0⟩ ⟨none, none, none⟩ true _ rfl⟩

/-- C4: when the decoded payload's own error flag is true with reason R,
`GetTemperature` fails with `WeatherServiceError` message "Weather API
error" and details exactly R, and returns no reading. -/
theorem GetTemperature_payload_error (env : WeatherEnv) (location : String)
    (resp : HttpResponse) (body : String) (payload : OpenMeteoResponse)
    (hget : env.httpGet (getCoordinatesForLocation location) = .ok resp)
    (hread : resp.readBody = .ok body)
    (hstatus : resp.statusCode = 200)
    (hjson : env.jsonUnmarshal body = .ok payload)
    (herr : payload.error = true) :
    GetTemperature env location = .error ⟨"Weather API error", payload.reason⟩ := by
  simp [GetTemperature, hget, hread, hstatus, hjson, herr]

/-- Witness for C4: the error-flag environment with reason "X". -/
theorem GetTemperature_payload_error_witness :
    GetTemperature sampleErrFlagEnv "sydney" =
      .error ⟨"Weather API error", "X"⟩ :=
  GetTemperature_payload_error sampleErrFlagEnv "sydney" sampleOkResp
    "weather-body" ⟨0, true, "X"⟩ rfl rfl rfl rfl rfl

/-- C5: on any non-200 status (with a readable body), `GetTemperature`
fails with message "Weather API error" and details exactly
"Status code: N"; the statement quantifies over the whole environment
(any body content, any unmarshaller result), so the status check takes
precedence over JSON decoding and the payload error flag. -/
theorem GetTemperature_non200_status (env : WeatherEnv) (location : String)
    (resp : HttpResponse) (body : String)
    (hget : env.httpGet (getCoordinatesForLocation location) = .ok resp)
    (hread : resp.readBody = .ok body)
    (hstatus : resp.statusCode ≠ 200) :
    GetTemperature env location =
      .error ⟨"Weather API error", "Status code: " ++ toString resp.statusCode⟩ := by
  simp [GetTemperature, hget, hread, hstatus]

/-- Witness for C5: the 500 environment — whose payload would decode
with the error flag set — still reports the status-code error. -/
theorem GetTemperature_non200_status_witness :
    GetTemperature sample500Env "paris" =
      .error ⟨"Weather API error", "Status code: 500"⟩ ∧
    sample500Env.jsonUnmarshal "oops" = .ok ⟨0, true, "ignored"⟩ := by
  constructor
  · have h := GetTemperature_non200_status sample500Env "paris" sample500Resp
      "oops" rfl rfl (by decide)
    rw [show ("Status code: " ++ toString sample500Resp.statusCode) =
      "Status code: 500" from by decide] at h
    exact h
  · rfl

/-- C6: on RPC success the temperature bridge answers 200 with the RPC
record mapped field-by-field into JSON; the timestamp is decoded with
`readBigInt64BE` from either Buffer shape and is always emitted as a
string (`decodeTimestamp` returns `String`). -/
theorem temperature_bridge_success_mapping :
    (∀ loc rpc r, loc ≠ "" → rpc loc = .ok r →
      handleTemperature (some loc) rpc =
        ⟨.success 200 ⟨r.temperature, r.location,
          decodeTimestamp r.timestamp, r.unit⟩, true⟩) ∧
    (∀ n, decodeTimestamp (.num n) = toString n) ∧
    (∀ bytes, decodeTimestamp (.buf bytes) = toString (readBigInt64BE bytes)) ∧
    (∀ data, decodeTimestamp (.bufObj data) = toString (readBigInt64BE data)) := by
  refine ⟨fun loc rpc r hne hok => ?_, fun n => rfl, fun bytes => rfl, fun data => rfl⟩
  simp [handleTemperature, hne, hok]

/-- Witness for C6: an RPC result whose timestamp is the 8-byte
big-endian Buffer for 42 is emitted as the string "42". -/
theorem temperature_bridge_success_mapping_witness :
    handleTemperature (some "london")
        (fun _ => .ok ⟨20.5, "london", .buf [0, 0, 0, 0, 0, 0, 0, 42], "celsius"⟩) =
      ⟨.success 200 ⟨20.5, "london", "42", "celsius"⟩, true⟩ := by
  have h := temperature_bridge_success_mapping.1 "london"
    (fun _ => .ok ⟨20.5, "london", .buf [0, 0, 0, 0, 0, 0, 0, 42], "celsius"⟩)
    ⟨20.5, "london", .buf [0, 0, 0, 0, 0, 0, 0, 42], "celsius"⟩ (by decide) rfl
  rw [show decodeTimestamp (.buf [0, 0, 0, 0, 0, 0, 0, 42]) = "42" from by decide] at h
  exact h

/-- C7: connection acquisition at the caching LLM bridge — a cached
client with a connected connection is returned unchanged with no new
connection; otherwise a fresh connection is created (closing any
existing one) with timeout 30000 ms, max_attempts 3, retry_max_delay
2000; and an RPC failure answers 500 with the failure detail and nulls
the cached client so the next request reconnects. -/
theorem llm_bridge_connection_lifecycle :
    (∀ s fc c conn, s.thriftClient = some c → s.thriftConnection = some conn →
      conn.connected = true →
      createThriftClient s fc = ⟨c, s, false, false⟩) ∧
    (∀ s fc, (s.thriftClient = none ∨ s.thriftConnection = none ∨
        ∃ conn, s.thriftConnection = some conn ∧ conn.connected = false) →
      createThriftClient s fc = connectFresh s fc) ∧
    (∀ s fc, (connectFresh s fc).openedNew = true ∧
      (connectFresh s fc).closedExisting = s.thriftConnection.isSome ∧
      (connectFresh s fc).state.thriftConnection = some ⟨fc, 30000, 3, 2000⟩ ∧
      (connectFresh s fc).state.thriftClient = some (connectFresh s fc).client) ∧
    (∀ s body fc rpc p e, body.prompt = some p → p ≠ "" →
      rpc (createThriftClient s fc).client
          (buildLlmRequest p body.temperature body.maxTokens) = .error e →
      handleLlm s body fc rpc =
        ⟨.serverError 500 "Failed to generate text" e,
          { (createThriftClient s fc).state with thriftClient := none }, true,
          some (buildLlmRequest p body.temperature body.maxTokens)⟩) := by
  refine ⟨?_, ?_, ?_, ?_⟩
  · rintro ⟨tc, tcn, nid⟩ fc c conn hc hconn hcon
    simp only at hc hconn
    subst hc; subst hconn
    simp [createThriftClient, hcon]
  · rintro ⟨tc, tcn, nid⟩ fc h
    rcases tc with _ | c <;> rcases tcn with _ | conn <;>
      simp [createThriftClient]
    rcases h with h | h | ⟨conn2, hc, hcon⟩
    · cases h
    · cases h
    · cases Option.some.inj hc; simp [hcon]
  · intro s fc; exact ⟨rfl, rfl, rfl, rfl⟩
  · intro s body fc rpc p e hp hne hrpc
    simp [handleLlm, hp, hne, hrpc]

/-- Witness for C7: a connected cached client (id 5) is reused as-is;
and with empty initial state an RPC failure answers 500 with the error
detail, leaving a fresh 30000/3/2000 connection cached but the client
slot nulled. -/
theorem llm_bridge_connection_lifecycle_witness :
    createThriftClient ⟨some 5, some ⟨true, 30000, 3, 2000⟩, 6⟩ true =
      ⟨5, ⟨some 5, some ⟨true, 30000, 3, 2000⟩, 6⟩, false, false⟩ ∧
    handleLlm ⟨none, none, 0⟩ ⟨some "hi", none, none⟩ true
        (fun _ _ => .error "ECONNREFUSED") =
      ⟨.serverError 500 "Failed to generate text" "ECONNREFUSED",
        ⟨none, some ⟨true, 30000, 3, 2000⟩, 1⟩, true, some ⟨"hi", 0.7, 512⟩⟩ :=
  ⟨llm_bridge_connection_lifecycle.1 ⟨some 5, some ⟨true, 30000, 3, 2000⟩, 6⟩
      true 5 ⟨true, 30000, 3, 2000⟩ rfl rfl rfl,
   llm_bridge_connection_lifecycle.2.2.2 ⟨none, none, 0⟩ ⟨some "hi", none, none⟩
      true (fun _ _ => .error "ECONNREFUSED") "hi" "ECONNREFUSED" rfl
      (by decide) rfl⟩

/-- C8: the coordinate lookup is exact-match and case-sensitive — any
string that lowercases (character-wise) to a table key but is itself
absent from the table resolves to the New York default — while a
successful reading still echoes the caller's original location string
unchanged. -/
theorem coords_case_sensitive_echo :
    (∀ s key, key ∈ coordinates.map Prod.fst →
      s.data.map Char.toLower = key.data → coordinates.lookup s = none →
      getCoordinatesForLocation s = (40.7128, -74.0060)) ∧
    (∀ env loc r, GetTemperature env loc = .ok r → r.location = loc) := by
  constructor
  · intro s key _ _ h
    simp [getCoordinatesForLocation, h]
  · intro env loc r h
    simp only [GetTemperature] at h
    split at h
    · cases h
    · split at h
      · cases h
      · split at h
        · cases h
        · split at h
          · cases h
          · split at h
            · cases h
            · cases h; rfl

/-- Witness for C8: "London" lowercases to the key "london" yet resolves
to the default, and the successful reading for "London" echoes the
capitalized string. -/
theorem coords_case_sensitive_echo_witness :
    getCoordinatesForLocation "London" = (40.7128, -74.0060) ∧
    (⟨20.5, "London", 1700000000, "celsius"⟩ : TemperatureReading).location =
      "London" :=
  ⟨coords_case_sensitive_echo.1 "London" "london" (by decide) (by decide) (by decide),
   coords_case_sensitive_echo.2 sampleOkEnv "London"
     ⟨20.5, "London", 1700000000, "celsius"⟩ rfl⟩

/-- C9: the LLM bridge defaults with a falsy check — the request's
temperature is 0.7 when the caller's temperature is absent or 0, its
max_length is 512 when maxTokens is absent or 0, so the sent request
never carries temperature 0 or max_length 0 — and the request the route
sends is exactly `buildLlmRequest` of the body's fields. -/
theorem llm_request_falsy_defaults :
    (∀ p mt, (buildLlmRequest p none mt).temperature = 0.7) ∧
    (∀ p mt, (buildLlmRequest p (some 0) mt).temperature = 0.7) ∧
    (∀ p t mt, (buildLlmRequest p t mt).temperature ≠ 0) ∧
    (∀ p t, (buildLlmRequest p t none).max_length = 512) ∧
    (∀ p t, (buildLlmRequest p t (some 0)).max_length = 512) ∧
    (∀ p t mt, (buildLlmRequest p t mt).max_length ≠ 0) ∧
    (∀ s body fc rpc p, body.prompt = some p → p ≠ "" →
      (handleLlm s body fc rpc).sentRequest =
        some (buildLlmRequest p body.temperature body.maxTokens)) := by
  refine ⟨fun p mt => rfl, fun p mt => by simp [buildLlmRequest, jsOrQ],
    ?_, fun p t => rfl, fun p t => by simp [buildLlmRequest, jsOrI], ?_, ?_⟩
  · intro p t mt
    rcases t with _ | x
    · simp only [buildLlmRequest, jsOrQ]; norm_num
    · simp only [buildLlmRequest, jsOrQ]
      split
      · norm_num
      · assumption
  · intro p t mt
    rcases mt with _ | x
    · simp only [buildLlmRequest, jsOrI]; norm_num
    · simp only [buildLlmRequest, jsOrI]
      split
      · norm_num
      · assumption
  · intro s body fc rpc p hp hne
    simp only [handleLlm, hp]
    rw [if_neg hne]
    split <;> rfl

/-- Witness for C9: temperature 0 and maxTokens 0 are replaced by 0.7
and 512 in the request the route sends. -/
theorem llm_request_falsy_defaults_witness :
    (buildLlmRequest "go" none none).temperature = 0.7 ∧
    (buildLlmRequest "go" (some 0) (some 0)).temperature = 0.7 ∧
    (buildLlmRequest "go" (some 0) (some 0)).max_length = 512 ∧
    (buildLlmRequest "go" (some 0) (some 0)).temperature ≠ 0 ∧
    (handleLlm ⟨none, none, 0⟩ ⟨some "go", some 0, some 0⟩ true
        (fun _ _ => .error "down")).sentRequest =
      some (buildLlmRequest "go" (some 0) (some 0)) :=
  ⟨llm_request_falsy_defaults.1 "go" none,
   llm_request_falsy_defaults.2.1 "go" (some 0),
   llm_request_falsy_defaults.2.2.2.2.1 "go" (some 0),
   llm_request_falsy_defaults.2.2.1 "go" (some 0) (some 0),
   llm_request_falsy_defaults.2.2.2.2.2.2 ⟨none, none, 0⟩
     ⟨some "go", some 0, some 0⟩ true (fun _ _ => .error "down") "go" rfl
     (by decide)⟩

/-- C10: if the HTTP GET succeeds but reading the response body fails,
`GetTemperature` fails with message "Failed to read response" carrying
the read error text; the status code is unconstrained here, so this
failure fires before the status-code check. -/
theorem GetTemperature_read_failure (env : WeatherEnv) (location : String)
    (resp : HttpResponse) (e : String)
    (hget : env.httpGet (getCoordinatesForLocation location) = .ok resp)
    (hread : resp.readBody = .error e) :
    GetTemperature env location = .error ⟨"Failed to read response", e⟩ := by
  simp [GetTemperature, hget, hread]

/-- Witness for C10: a 500 response whose body read fails reports the
read error, not the status-code error. -/
theorem GetTemperature_read_failure_witness :
    GetTemperature sampleReadFailEnv "tokyo" =
      .error ⟨"Failed to read response", "connection reset"⟩ ∧
    sampleReadFailResp.statusCode ≠ 200 :=
  ⟨GetTemperature_read_failure sampleReadFailEnv "tokyo" sampleReadFailResp
      "connection reset" rfl rfl,
   by decide⟩

end ThriftExamples
